import Mathlib

/-!
Shallow embedding of the bidding-analysis ML service and training pipeline.

Sources embedded:
* `src/ml-service/ml_service.py` — the Flask prediction service
  (`load_model`, `health`, `predict`, `encode_feature`).
* `src/scripts/py_scripts/train_model.py` — the training pipeline
  (`BidOptimizer.FEATURE_COLUMNS`, `export_to_onnx`, and the publish
  sequence at the end of `main`).

Python floats are modelled as rationals (ℚ); JSON bodies as association
lists; the mutable global service state (`model`, `encoders`) as an explicit
`ServiceState`; the filesystem as an association list from path strings to
file contents.  The XGBoost booster is opaque in the source, so a loaded
model is an opaque scoring function `List ℚ → ℚ`.
-/

namespace BidML

/-- First-match association-list lookup by string key (Python dict access;
dict keys are unique so first match is the match). -/
def lookupS {β : Type} : List (String × β) → String → Option β
  | [], _ => none
  | (k, v) :: rest, key => if k = key then some v else lookupS rest key

@[simp] theorem lookupS_nil {β : Type} (key : String) :
    lookupS ([] : List (String × β)) key = none := rfl

theorem lookupS_cons {β : Type} (k : String) (v : β) (rest : List (String × β))
    (key : String) :
    lookupS ((k, v) :: rest) key = if k = key then some v else lookupS rest key := rfl

/-- A JSON scalar in a request body: a number or a string. -/
inductive JVal where
  | num (q : ℚ)
  | str (s : String)
deriving DecidableEq

/-- A JSON request body: mapping from field name to value
(`request.get_json()` result when it is a JSON object). -/
def Body := List (String × JVal)

instance : DecidableEq Body := by
  unfold Body; infer_instance

/-- `float(v)` applied to a JSON value.  A number converts to itself; for a
string the source would attempt decimal parsing and raise on failure — no
claim exercises numeric strings, so string conversion is modelled as the
failure case. -/
def pyFloat : JVal → Option ℚ
  | .num q => some q
  | .str _ => none

/-- `str(v)` applied to a JSON value (used on categorical values before
encoder lookup). -/
def asStr : JVal → String
  | .num q => toString q
  | .str s => s

/-- `float(data.get(key, default))`: absent key yields the default, a present
number converts, a present non-numeric value fails. -/
def getFloat (d : Body) (key : String) (default : ℚ) : Option ℚ :=
  match lookupS d key with
  | none => some default
  | some v => pyFloat v

/-- `str(data.get(key, default))` with a string default, as fed to
`encode_feature`. -/
def getStr (d : Body) (key : String) (default : String) : String :=
  match lookupS d key with
  | none => default
  | some v => asStr v

/-- Encoder table: field name → (categorical value → numeric code),
as loaded from `*_encoders.json`. -/
def EncTable := List (String × List (String × ℚ))

instance : DecidableEq EncTable := by
  unfold EncTable; infer_instance

/-- `encode_feature` (ml_service.py lines 167-171):
`if encoders and feature_name in encoders: return
float(encoders[feature_name].get(str(value), 0.0))` else `0.0`.
Note `if encoders` is Python truthiness: `None` and the empty dict both
fail it. -/
def encode_feature (encoders : Option EncTable) (feature_name : String)
    (value : String) : ℚ :=
  match encoders with
  | none => 0
  | some e =>
    if e.isEmpty then 0
    else
      match lookupS e feature_name with
      | none => 0
      | some m => (lookupS m value).getD 0

/-- The feature list built in `predict` (ml_service.py lines 111-126):
each `float(...)` conversion can raise, hence `Option`. -/
def buildFeatures (encoders : Option EncTable) (d : Body) : Option (List ℚ) := do
  let floor_price ← getFloat d "floor_price" 1
  let engagement_score ← getFloat d "engagement_score" (1/2)
  let conversion_probability ← getFloat d "conversion_probability" (1/10)
  let historical_win_rate ← getFloat d "historical_win_rate" (2/5)
  let historical_avg_bid ← getFloat d "historical_avg_bid" (5/2)
  let historical_avg_win_price ← getFloat d "historical_avg_win_price" (27/10)
  let device_type := encode_feature encoders "device_type"
    (getStr d "device_type" "unknown")
  let segment_category := encode_feature encoders "segment_category"
    (getStr d "segment_category" "standard")
  let hour_of_day ← getFloat d "hour_of_day" 12
  let day_of_week ← getFloat d "day_of_week" 1
  let country := encode_feature encoders "country" (getStr d "country" "US")
  let campaign_spend_last_7d ← getFloat d "campaign_spend_last_7d" 100
  let campaign_conversions_last_7d ← getFloat d "campaign_conversions_last_7d" 3
  some [floor_price, engagement_score, conversion_probability,
    historical_win_rate, historical_avg_bid, historical_avg_win_price,
    device_type, segment_category, hour_of_day, day_of_week, country,
    campaign_spend_last_7d, campaign_conversions_last_7d]

/-- The `feature_names` list passed to `xgb.DMatrix` in `predict`
(ml_service.py lines 131-145). -/
def servingFeatureNames : List String :=
  ["floor_price", "engagement_score", "conversion_probability",
   "historical_win_rate", "historical_avg_bid", "historical_avg_win_price",
   "device_type_encoded", "segment_category_encoded", "hour_of_day",
   "day_of_week", "country_encoded", "campaign_spend_last_7d",
   "campaign_conversions_last_7d"]

/-- `BidOptimizer.FEATURE_COLUMNS` (train_model.py lines 38-52): the
training-time feature column order. -/
def FEATURE_COLUMNS : List String :=
  ["floor_price", "engagement_score", "conversion_probability",
   "historical_win_rate", "historical_avg_bid", "historical_avg_win_price",
   "device_type_encoded", "segment_category_encoded", "hour_of_day",
   "day_of_week", "country_encoded", "campaign_spend_last_7d",
   "campaign_conversions_last_7d"]

/-- Round half to even on ℚ (Python 3 `round` semantics). -/
def roundHalfEven (q : ℚ) : ℤ :=
  let f := ⌊q⌋
  let frac := q - f
  if frac < 1/2 then f
  else if 1/2 < frac then f + 1
  else if f % 2 = 0 then f else f + 1

/-- `round(x, 4)`: round to 4 decimal digits. -/
def round4 (q : ℚ) : ℚ := (roundHalfEven (q * 10000) : ℚ) / 10000

/-- A response from a route: success JSON fields, or an error JSON plus an
HTTP status code. -/
inductive Response where
  | ok (bid_price confidence : ℚ) (strategy : String)
  | err (code : ℕ) (msg : String)
deriving DecidableEq

/-- Global mutable state of the service: the `model` and `encoders`
globals (ml_service.py lines 24-25).  A loaded booster is opaque, so it is
an arbitrary scoring function over the feature vector. -/
structure ServiceState where
  model : Option (List ℚ → ℚ)
  encoders : Option EncTable

/-- `health` (ml_service.py lines 87-96): returns the status string, the
`model_loaded` flag and the HTTP status code. -/
def health (st : ServiceState) : String × Bool × ℕ :=
  let is_healthy := st.model.isSome && st.encoders.isSome
  ((if is_healthy then "healthy" else "unhealthy"),
   st.model.isSome,
   (if is_healthy then 200 else 503))

/-- `predict` (ml_service.py lines 99-164).  `body = none` models a request
whose body is not JSON (`get_json()` returned `None`); Python's `if not
data` also fires on an empty JSON object.  A failed `float(...)` conversion
raises and is caught by the outer handler as a 500. -/
def predict (st : ServiceState) (body : Option Body) : Response :=
  match st.model with
  | none => .err 503 "Model not loaded"
  | some f =>
    match body with
    | none => .err 400 "No JSON data"
    | some data =>
      if data.isEmpty then .err 400 "No JSON data"
      else
        match buildFeatures st.encoders data with
        | none => .err 500 "could not convert to float"
        | some features =>
          let prediction := f features
          match getFloat data "floor_price" 1 with
          | none => .err 500 "could not convert to float"
          | some floor_price =>
            let prediction :=
              if prediction < floor_price then floor_price * (101/100)
              else prediction
            .ok (round4 prediction) (9/10) "ml_optimized"

/-! ## Filesystem model

The training pipeline and the service communicate through files.  A
filesystem is an association list from path strings to contents.  Model
artifacts are opaque byte payloads in the source; here they carry the
numeric identifier of the publish/export call that produced them, and an
encoder artifact additionally carries the serialized table.  `partialFile`
is a file that was opened for writing but whose payload was not fully
written. -/

inductive FsFile where
  | dir
  | modelArt (call : ℕ)
  | encArt (call : ℕ) (table : EncTable)
  | partialFile
deriving DecidableEq

/-- A filesystem: paths with contents (first match wins). -/
def FS := List (String × FsFile)

instance : DecidableEq FS := by
  unfold FS; infer_instance

/-- `os.path.exists` -/
def fsExists (fs : FS) (p : String) : Bool := (lookupS fs p).isSome

/-- Writing a file (create or truncate-and-replace at `p`). -/
def fsWrite (fs : FS) (p : String) (c : FsFile) : FS := (p, c) :: fs

/-- `os.remove` -/
def fsRemove (fs : FS) (p : String) : FS := fs.filter (fun e => e.1 ≠ p)

/-- `shutil.copy2(src, dst)`: read `src`, write its content to `dst`
(raises when `src` is missing; modelled as a no-op, never reached in the
flows proved below because the source is written earlier in the same
sequence). -/
def fsCopy (fs : FS) (src dst : String) : FS :=
  match lookupS fs src with
  | some c => fsWrite fs dst c
  | none => fs

@[simp] theorem lookupS_fsWrite (fs : FS) (p q : String) (c : FsFile) :
    lookupS (fsWrite fs p c) q = if p = q then some c else lookupS fs q := rfl

@[simp] theorem lookupS_fsRemove (fs : FS) (p q : String) :
    lookupS (fsRemove fs p) q = if p = q then none else lookupS fs q := by
  induction fs with
  | nil => simp [fsRemove, lookupS]
  | cons e rest ih =>
    obtain ⟨k, v⟩ := e
    by_cases hk : k = p
    · subst hk
      have h1 : fsRemove ((k, v) :: rest) k = fsRemove rest k := by
        simp [fsRemove]
      rw [h1, ih]
      by_cases hq : k = q
      · simp [hq]
      · simp [hq, lookupS_cons]
    · have h1 : fsRemove ((k, v) :: rest) p = (k, v) :: fsRemove rest p := by
        simp [fsRemove, hk]
      rw [h1, lookupS_cons, ih]
      by_cases hkq : k = q
      · subst hkq
        have hpq : ¬ p = k := fun h => hk h.symm
        simp [hpq, lookupS_cons]
      · simp [hkq, lookupS_cons]

/-! ## Service model loading (`ml_service.py` lines 29-71, 174-182)

`load_model` mutates the globals `model` and `encoders`; a raised
exception is returned as `some message`.  The booster payload is opaque,
so loading interprets the artifact identifier through an ambient `interp`
function.  A file present at the model path but with corrupt content would
also fail to load in the source; no claim depends on that case, and it is
collapsed into the not-found branch here. -/

/-- Load from an already-resolved models directory: the body of
`load_model` after the directory choice, with the two joined paths.
Note the source assigns the global `model` before checking for the
encoders file, so a missing encoders file leaves the model loaded. -/
def loadFrom (interp : ℕ → List ℚ → ℚ) (fs : FS) (st : ServiceState)
    (model_path encoders_path : String) : ServiceState × Option String :=
  match lookupS fs model_path with
  | some (.modelArt n) =>
    let st1 : ServiceState := { st with model := some (interp n) }
    match lookupS fs encoders_path with
    | some (.encArt _ t) => ({ st1 with encoders := some t }, none)
    | _ => (st1, some ("Encoders not found: " ++ encoders_path))
  | _ => (st, some ("Model not found: " ++ model_path))

/-- `load_model`: resolve the models directory (`../models` preferred,
then `models`), then load `bid_optimizer_latest.json` and
`bid_optimizer_latest_encoders.json` from it. -/
def load_model (interp : ℕ → List ℚ → ℚ) (fs : FS) (st : ServiceState) :
    ServiceState × Option String :=
  if fsExists fs "../models" then
    loadFrom interp fs st "../models/bid_optimizer_latest.json"
      "../models/bid_optimizer_latest_encoders.json"
  else if fsExists fs "models" then
    loadFrom interp fs st "models/bid_optimizer_latest.json"
      "models/bid_optimizer_latest_encoders.json"
  else (st, some "Models directory not found")

/-- Service startup (`ml_service.py` lines 174-182): `load_model()` inside
`try/except`, the exception only logged; the server then runs with
whatever state the globals were left in. -/
def startService (interp : ℕ → List ℚ → ℚ) (fs : FS) : ServiceState :=
  (load_model interp fs ⟨none, none⟩).1

/-! ## Publish sequence (`train_model.py` `main`, lines 515-570)

`args.output` defaults to `"models/bid_optimizer.onnx"`, the configuration
the service's load paths expect; the embedding fixes it to that default.
`main` never writes the timestamped `.onnx` (ONNX is skipped, line 518),
so the timestamped artifact is always the `.json`. -/

/-- Python's `str.replace` on char lists: replace every non-overlapping
occurrence of `pat`, left to right.  Fuel-structured recursion (the fuel is
the string length, enough since each step consumes at least one char). -/
def replaceFuel : ℕ → List Char → List Char → List Char → List Char
  | 0, s, _, _ => s
  | fuel + 1, s, pat, rep =>
    match s with
    | [] => []
    | c :: rest =>
      if pat ≠ [] ∧ pat.isPrefixOf s then
        rep ++ replaceFuel fuel (s.drop pat.length) pat rep
      else c :: replaceFuel fuel rest pat rep

/-- Python's `s.replace(pat, rep)`. -/
def pyReplace (s pat rep : String) : String :=
  ⟨replaceFuel s.data.length s.data pat.data rep.data⟩

/-- Python's `s.endswith(suffix)`. -/
def pyEndsWith (s suffix : String) : Bool := suffix.data.isSuffixOf s.data

/-- `args.output.replace(".onnx", f"_{timestamp}.onnx")` for the default
output, for a timestamp free of the substring `".onnx"`. -/
def model_path (ts : String) : String := "models/bid_optimizer_" ++ ts ++ ".onnx"

/-- `model_path.replace(".onnx", ".json")` likewise. -/
def model_json (ts : String) : String := "models/bid_optimizer_" ++ ts ++ ".json"

/-- `model_json.replace(".json", "_encoders.json")` likewise. -/
def ts_encoders (ts : String) : String :=
  "models/bid_optimizer_" ++ ts ++ "_encoders.json"

/-- The encoder companion name derivation used at lines 422-424 and
559-564: `p.replace(".onnx", "_encoders.json").replace(".json",
"_encoders.json")`; like Python, `String.replace` replaces every
occurrence. -/
def encName (p : String) : String :=
  pyReplace (pyReplace p ".onnx" "_encoders.json") ".json" "_encoders.json"

/-- Step 0: `os.makedirs(os.path.dirname(model_path), exist_ok=True)`
(line 519). -/
def pub0 (fs0 : FS) : FS :=
  if fsExists fs0 "models" then fs0 else fsWrite fs0 "models" .dir

/-- Step 1: `optimizer.model.save_model(model_json)` (line 522). -/
def pub1 (fs0 : FS) (ts : String) (n : ℕ) : FS :=
  fsWrite (pub0 fs0) (model_json ts) (.modelArt n)

/-- Step 2: `json.dump(optimizer.feature_encoders, f)` to the timestamped
encoder path (lines 526-528). -/
def pub2 (fs0 : FS) (ts : String) (n : ℕ) (enc : EncTable) : FS :=
  fsWrite (pub1 fs0 ts n) (ts_encoders ts) (.encArt n enc)

/-- `actual_model_path` (lines 531-537): the `.onnx` if it exists, else the
`.json`. -/
def actualModelPath (fs : FS) (ts : String) : String :=
  if fsExists fs (model_path ts) then model_path ts else model_json ts

/-- `latest_path` (lines 543-548): extension follows `actual_model_path`. -/
def latestPath (fs : FS) (ts : String) : String :=
  if pyEndsWith (actualModelPath fs ts) ".json" then
    "models/bid_optimizer_latest.json"
  else "models/bid_optimizer_latest.onnx"

/-- Step 3: remove the old latest if it exists (lines 550-552). -/
def pub3 (fs0 : FS) (ts : String) (n : ℕ) (enc : EncTable) : FS :=
  let s2 := pub2 fs0 ts n enc
  let lp := latestPath s2 ts
  if fsExists s2 lp then fsRemove s2 lp else s2

/-- Step 4: `shutil.copy2(actual_model_path, latest_path)` (line 555). -/
def pub4 (fs0 : FS) (ts : String) (n : ℕ) (enc : EncTable) : FS :=
  let s2 := pub2 fs0 ts n enc
  fsCopy (pub3 fs0 ts n enc) (actualModelPath s2 ts) (latestPath s2 ts)

/-- Step 5: remove the old latest encoders if both source and destination
exist (lines 559-568). -/
def pub5 (fs0 : FS) (ts : String) (n : ℕ) (enc : EncTable) : FS :=
  let s2 := pub2 fs0 ts n enc
  let s4 := pub4 fs0 ts n enc
  let src := encName (actualModelPath s2 ts)
  let dst := encName (latestPath s2 ts)
  if fsExists s4 src then
    (if fsExists s4 dst then fsRemove s4 dst else s4)
  else s4

/-- Step 6: `shutil.copy2(encoder_src, encoder_dst)` (line 569), guarded by
the source's existence. -/
def pub6 (fs0 : FS) (ts : String) (n : ℕ) (enc : EncTable) : FS :=
  let s2 := pub2 fs0 ts n enc
  let s4 := pub4 fs0 ts n enc
  let src := encName (actualModelPath s2 ts)
  let dst := encName (latestPath s2 ts)
  if fsExists s4 src then fsCopy (pub5 fs0 ts n enc) src dst else s4

/-- The whole publish (the tail of `main`). -/
def publish (fs0 : FS) (ts : String) (n : ℕ) (enc : EncTable) : FS :=
  pub6 fs0 ts n enc

/-- Every filesystem state observable during a publish, in order: one entry
after each mutation step. -/
def publishStates (fs0 : FS) (ts : String) (n : ℕ) (enc : EncTable) : List FS :=
  [fs0, pub0 fs0, pub1 fs0 ts n, pub2 fs0 ts n enc, pub3 fs0 ts n enc,
   pub4 fs0 ts n enc, pub5 fs0 ts n enc, pub6 fs0 ts n enc]

/-- Resolving the "latest" model artifact, at the path the service reads
(`models/bid_optimizer_latest.json`). -/
def resolveLatestModel (fs : FS) : Option FsFile :=
  lookupS fs "models/bid_optimizer_latest.json"

/-- Resolving the "latest" encoder table artifact. -/
def resolveLatestEncoders (fs : FS) : Option FsFile :=
  lookupS fs "models/bid_optimizer_latest_encoders.json"

/-! ## Export (`train_model.py` `BidOptimizer.export_to_onnx`, lines 368-428)

The ONNX conversion can raise one of the caught types (`convert_ok =
false`); when it succeeds, `open(output_path, "wb")` first creates or
truncates the file and the payload is then written — an I/O error during
that write (`write_ok = false`) propagates out of the function, leaving
whatever was on disk.  Directory creation (line 379) is omitted: no claim
touches it. -/

def export_to_onnx (fs : FS) (output_path : String) (n : ℕ) (enc : EncTable)
    (convert_ok write_ok : Bool) : FS × Bool :=
  if convert_ok then
    -- `with open(output_path, "wb") as f:` — file exists, not yet written
    let fs1 := fsWrite fs output_path .partialFile
    if write_ok then
      -- `f.write(onnx_model.SerializeToString())` completed
      let fs2 := fsWrite fs1 output_path (.modelArt n)
      -- `json.dump(self.feature_encoders, f)` at `encoder_path` (lines 422-426)
      (fsWrite fs2 (encName output_path) (.encArt n enc), true)
    else (fs1, false)
  else
    -- fallback: `self.model.save_model(xgb_path)` (lines 404-419)
    let xgb_path := pyReplace output_path ".onnx" ".json"
    let fs1 := fsWrite fs xgb_path (.modelArt n)
    (fsWrite fs1 (encName xgb_path) (.encArt n enc), true)

/-- A fully-populated, well-typed request body, in the field order of the
external interface (a convenient constructor for concrete requests). -/
def mkBody (fp es cp hwr hab hawp : ℚ) (dt sc : String) (hod dow : ℚ)
    (co : String) (cs cc : ℚ) : Body :=
  [("floor_price", .num fp), ("engagement_score", .num es),
   ("conversion_probability", .num cp), ("historical_win_rate", .num hwr),
   ("historical_avg_bid", .num hab), ("historical_avg_win_price", .num hawp),
   ("device_type", .str dt), ("segment_category", .str sc),
   ("hour_of_day", .num hod), ("day_of_week", .num dow),
   ("country", .str co), ("campaign_spend_last_7d", .num cs),
   ("campaign_conversions_last_7d", .num cc)]

/-! ## Claim theorems -/

/-- Evaluation rule for a successful `predict` call, read off the source:
model loaded, body present and non-empty, features built, floor converted. -/
theorem predict_ok (f : List ℚ → ℚ) (encs : Option EncTable) (d : Body)
    (hne : d.isEmpty = false) (feats : List ℚ)
    (hf : buildFeatures encs d = some feats) (fp : ℚ)
    (hfp : getFloat d "floor_price" 1 = some fp) :
    predict ⟨some f, encs⟩ (some d) =
      Response.ok (round4 (if f feats < fp then fp * (101/100) else f feats))
        (9/10) "ml_optimized" := by
  simp only [predict, hne, hf, hfp, Bool.false_eq_true, if_false]

/-- Rounding an integer-valued rational to 4 decimals is the identity. -/
theorem roundHalfEven_intCast (z : ℤ) : roundHalfEven (z : ℚ) = z := by
  unfold roundHalfEven
  norm_num

theorem round4_two : round4 (2 : ℚ) = 2 := by
  unfold round4
  have h : (2 * 10000 : ℚ) = ((20000 : ℤ) : ℚ) := by norm_num
  rw [h, roundHalfEven_intCast]
  norm_num

/-- C1: the clamp at ml_service.py lines 149-152 uses a strict `<`, so at
the boundary where the raw model score equals the floor exactly the score
is NOT replaced: with floor_price 2 and a model scoring exactly 2, the
service returns bid_price 2, which is below floor_price × 1.01 = 2.02 —
the code contradicts the claimed (and commented, "Ensure above floor")
strict floor guarantee. -/
theorem C1_floor_boundary_unclamped :
    predict ⟨some (fun _ => 2), none⟩ (some [("floor_price", JVal.num 2)])
      = Response.ok 2 (9/10) "ml_optimized" ∧ (2 : ℚ) < 2 * (101/100) := by
  constructor
  · have h := predict_ok (fun _ => (2:ℚ)) none [("floor_price", JVal.num 2)]
      rfl [2, 1/2, 1/10, 2/5, 5/2, 27/10, 0, 0, 12, 1, 0, 100, 3] rfl 2 rfl
    rw [h]
    norm_num [round4_two]
  · norm_num

/-- C4: the training-time `FEATURE_COLUMNS` and the serving-time
`feature_names` agree exactly and list the 13 documented features in the
documented order, and every feature vector the serving builder produces
has 13 elements. -/
theorem C4_feature_order_single_source :
    FEATURE_COLUMNS = servingFeatureNames ∧
    FEATURE_COLUMNS =
      ["floor_price", "engagement_score", "conversion_probability",
       "historical_win_rate", "historical_avg_bid",
       "historical_avg_win_price", "device_type_encoded",
       "segment_category_encoded", "hour_of_day", "day_of_week",
       "country_encoded", "campaign_spend_last_7d",
       "campaign_conversions_last_7d"] ∧
    FEATURE_COLUMNS.length = 13 ∧
    ∀ (enc : Option EncTable) (d : Body) (feats : List ℚ),
      buildFeatures enc d = some feats → feats.length = 13 := by
  refine ⟨rfl, rfl, rfl, ?_⟩
  intro enc d feats h
  simp only [buildFeatures, bind, Option.bind_eq_some, Option.some.injEq] at h
  obtain ⟨fp, -, es, -, cp, -, hwr, -, hab, -, hawp, -, hod, -, dow, -,
    cs, -, cc, -, hfe⟩ := h
  rw [← hfe]
  rfl

/-- Witness for C4 at a concrete input: a body providing only
`floor_price` builds a 13-element vector. -/
theorem C4_feature_order_single_source_witness :
    buildFeatures none [("floor_price", JVal.num 1)] =
      some [1, 1/2, 1/10, 2/5, 5/2, 27/10, 0, 0, 12, 1, 0, 100, 3] ∧
    ([1, 1/2, 1/10, 2/5, 5/2, 27/10, 0, 0, 12, 1, 0, 100, 3] : List ℚ).length
      = 13 :=
  ⟨rfl,
   C4_feature_order_single_source.2.2.2 none [("floor_price", JVal.num 1)]
     [1, 1/2, 1/10, 2/5, 5/2, 27/10, 0, 0, 12, 1, 0, 100, 3] rfl⟩

/-- C5: `encode_feature` returns the sentinel 0.0 whenever the encoder
table is absent, the field is absent from the table, or the value is
absent from the field's map — always totally, never raising. -/
theorem C5_encode_unseen_sentinel :
    (∀ (name v : String), encode_feature none name v = 0) ∧
    (∀ (e : EncTable) (name v : String), lookupS e name = none →
      encode_feature (some e) name v = 0) ∧
    (∀ (e : EncTable) (name v : String) (m : List (String × ℚ)),
      lookupS e name = some m → lookupS m v = none →
      encode_feature (some e) name v = 0) := by
  refine ⟨fun name v => rfl, ?_, ?_⟩
  · intro e name v h
    unfold encode_feature
    cases he : e.isEmpty <;> simp [h, he]
  · intro e name v m hm hv
    unfold encode_feature
    cases he : e.isEmpty <;> simp [hm, hv, he]

/-- Witness for C5: three concrete unseen-value lookups, all 0. -/
theorem C5_encode_unseen_sentinel_witness :
    encode_feature none "country" "XX" = 0 ∧
    encode_feature (some [("device_type", [("mobile", 3)])]) "country" "XX"
      = 0 ∧
    encode_feature (some [("country", [("US", 4)])]) "country" "XX" = 0 :=
  ⟨C5_encode_unseen_sentinel.1 "country" "XX",
   C5_encode_unseen_sentinel.2.1 [("device_type", [("mobile", 3)])]
     "country" "XX" (by decide),
   C5_encode_unseen_sentinel.2.2 [("country", [("US", 4)])] "country" "XX"
     [("US", 4)] (by decide) (by decide)⟩

/-- C6 counterexample: with a model loaded, a request whose body is the
empty JSON object `{}` is rejected with the 400 "No JSON data" error —
`if not data:` fires on an empty dict — instead of returning a bid built
from the documented defaults. -/
theorem C6_empty_body_counterexample :
    predict ⟨some (fun _ => 5), some []⟩ (some ([] : Body))
      = Response.err 400 "No JSON data" := rfl

/-- C6 amended: an empty request body is rejected with HTTP 400
"No JSON data" (for any loaded model and any encoder state); the
documented defaults are applied per missing field only for non-empty
bodies, e.g. a body carrying only floor_price builds the default vector
for the other 12 features. -/
theorem C6_empty_body_rejected (f : List ℚ → ℚ) (encs : Option EncTable) :
    predict ⟨some f, encs⟩ (some ([] : Body))
      = Response.err 400 "No JSON data" ∧
    buildFeatures none [("floor_price", JVal.num 2)] =
      some [2, 1/2, 1/10, 2/5, 5/2, 27/10, 0, 0, 12, 1, 0, 100, 3] :=
  ⟨rfl, rfl⟩

/-- C7 counterexample: with a model loaded and an encoder table loaded but
empty, `health` reports "healthy" (HTTP 200) — the source checks only
`is not None`, not non-emptiness — where the claim requires "unhealthy". -/
theorem C7_health_empty_encoders_healthy :
    health ⟨some (fun _ => 0), some ([] : EncTable)⟩
      = ("healthy", true, 200) := rfl

/-- C7 amended: `health` reports "healthy" (and HTTP 200) exactly when
both the model and the encoder table are loaded (non-None), regardless of
emptiness, and `model_loaded` mirrors the model's presence. -/
theorem C7_health_iff_loaded (st : ServiceState) :
    ((health st).1 = "healthy" ↔
      st.model.isSome = true ∧ st.encoders.isSome = true) ∧
    (health st).2.1 = st.model.isSome ∧
    ((health st).2.2 = 200 ↔
      st.model.isSome = true ∧ st.encoders.isSome = true) := by
  obtain ⟨m, e⟩ := st
  cases m <;> cases e <;> simp [health]

/-- C9: started against a filesystem holding no latest-model artifact at
either candidate path, the service comes up (the startup exception is
caught) with nothing loaded: `health` reports "unhealthy"/503 with
`model_loaded = false`, and `predict` answers every request with the 503
"Model not loaded" error. -/
theorem C9_no_artifact_unhealthy (interp : ℕ → List ℚ → ℚ) (fs : FS)
    (body : Option Body)
    (h1 : lookupS fs "../models/bid_optimizer_latest.json" = none)
    (h2 : lookupS fs "models/bid_optimizer_latest.json" = none) :
    startService interp fs = ⟨none, none⟩ ∧
    health (startService interp fs) = ("unhealthy", false, 503) ∧
    predict (startService interp fs) body
      = Response.err 503 "Model not loaded" := by
  have hs : startService interp fs = ⟨none, none⟩ := by
    by_cases e1 : fsExists fs "../models"
    · simp [startService, load_model, loadFrom, e1, h1]
    · by_cases e2 : fsExists fs "models"
      · simp [startService, load_model, loadFrom, e1, e2, h2]
      · simp [startService, load_model, e1, e2]
  refine ⟨hs, ?_, ?_⟩ <;> rw [hs] <;> rfl

/-- Witness for C9: the empty filesystem. -/
theorem C9_no_artifact_unhealthy_witness :
    lookupS ([] : FS) "../models/bid_optimizer_latest.json" = none ∧
    lookupS ([] : FS) "models/bid_optimizer_latest.json" = none ∧
    (startService (fun _ _ => 0) [] = ⟨none, none⟩ ∧
     health (startService (fun _ _ => 0) []) = ("unhealthy", false, 503) ∧
     predict (startService (fun _ _ => 0) []) none
       = Response.err 503 "Model not loaded") :=
  ⟨rfl, rfl, C9_no_artifact_unhealthy (fun _ _ => 0) [] none rfl rfl⟩

/-- C10: the readiness guard in `predict` inspects only `model`; with a
model loaded and `encoders = None`, a well-typed request is served
normally — every categorical slot of the built vector is the sentinel 0.0
and the response is a normally-shaped prediction. -/
theorem C10_predict_without_encoders
    (f : List ℚ → ℚ) (fp es cp hwr hab hawp hod dow cs cc : ℚ)
    (dt sc co : String) :
    buildFeatures none (mkBody fp es cp hwr hab hawp dt sc hod dow co cs cc)
      = some [fp, es, cp, hwr, hab, hawp, 0, 0, hod, dow, 0, cs, cc] ∧
    ∃ bp, predict ⟨some f, none⟩
        (some (mkBody fp es cp hwr hab hawp dt sc hod dow co cs cc))
      = Response.ok bp (9/10) "ml_optimized" :=
  ⟨rfl, ⟨_, rfl⟩⟩

/-! ## Publish anatomy -/

/-- Freshness of a publish call's timestamped file names: the timestamped
`.onnx` is not already on disk, and the timestamped names are distinct
from each other and from the fixed locations.  Every field holds for any
real `datetime.now().strftime("%Y%m%d_%H%M%S")` timestamp; they are
hypotheses only because the timestamp is an arbitrary string here. -/
structure FreshTs (fs0 : FS) (ts : String) : Prop where
  onnx_absent : lookupS fs0 (model_path ts) = none
  json_suffix : pyEndsWith (model_json ts) ".json" = true
  enc_name : encName (model_json ts) = ts_encoders ts
  mj_ne_mp : model_json ts ≠ model_path ts
  te_ne_mp : ts_encoders ts ≠ model_path ts
  dir_ne_mp : "models" ≠ model_path ts
  te_ne_mj : ts_encoders ts ≠ model_json ts
  mj_ne_lj : model_json ts ≠ "models/bid_optimizer_latest.json"
  te_ne_lj : ts_encoders ts ≠ "models/bid_optimizer_latest.json"
  mj_ne_le : model_json ts ≠ "models/bid_optimizer_latest_encoders.json"
  te_ne_le : ts_encoders ts ≠ "models/bid_optimizer_latest_encoders.json"
  mj_ne_dir : model_json ts ≠ "models"
  te_ne_dir : ts_encoders ts ≠ "models"
  mj_ne_parent : model_json ts ≠ "../models"
  te_ne_parent : ts_encoders ts ≠ "../models"

theorem lookupS_pub0 (fs0 : FS) (p : String) (hp : "models" ≠ p) :
    lookupS (pub0 fs0) p = lookupS fs0 p := by
  unfold pub0
  split
  · rfl
  · simp [lookupS_fsWrite, hp]

theorem lookupS_pub0_models (fs0 : FS) :
    (lookupS (pub0 fs0) "models").isSome = true := by
  unfold pub0
  split
  · next h => exact h
  · simp [lookupS_fsWrite]

theorem lookupS_pub2 (fs0 : FS) (ts : String) (n : ℕ) (enc : EncTable)
    (p : String) (hMJ : model_json ts ≠ p) (hTE : ts_encoders ts ≠ p)
    (hM : "models" ≠ p) :
    lookupS (pub2 fs0 ts n enc) p = lookupS fs0 p := by
  simp only [pub2, pub1, lookupS_fsWrite]
  rw [if_neg hTE, if_neg hMJ, lookupS_pub0 fs0 p hM]

theorem lookupS_pub2_mj (fs0 : FS) (ts : String) (n : ℕ) (enc : EncTable)
    (hTE : ts_encoders ts ≠ model_json ts) :
    lookupS (pub2 fs0 ts n enc) (model_json ts) = some (.modelArt n) := by
  simp [pub2, pub1, lookupS_fsWrite, hTE]

theorem lookupS_pub2_te (fs0 : FS) (ts : String) (n : ℕ) (enc : EncTable) :
    lookupS (pub2 fs0 ts n enc) (ts_encoders ts) = some (.encArt n enc) := by
  simp [pub2, lookupS_fsWrite]

theorem actualModelPath_pub2 (fs0 : FS) (ts : String) (n : ℕ) (enc : EncTable)
    (hf : FreshTs fs0 ts) :
    actualModelPath (pub2 fs0 ts n enc) ts = model_json ts := by
  unfold actualModelPath fsExists
  rw [lookupS_pub2 fs0 ts n enc _ hf.mj_ne_mp hf.te_ne_mp hf.dir_ne_mp,
    hf.onnx_absent]
  rfl

theorem latestPath_pub2 (fs0 : FS) (ts : String) (n : ℕ) (enc : EncTable)
    (hf : FreshTs fs0 ts) :
    latestPath (pub2 fs0 ts n enc) ts = "models/bid_optimizer_latest.json" := by
  unfold latestPath
  rw [actualModelPath_pub2 fs0 ts n enc hf, hf.json_suffix]
  rfl

theorem encName_latest :
    encName "models/bid_optimizer_latest.json"
      = "models/bid_optimizer_latest_encoders.json" := by decide

theorem lookupS_pub3 (fs0 : FS) (ts : String) (n : ℕ) (enc : EncTable)
    (hf : FreshTs fs0 ts) (p : String)
    (hp : "models/bid_optimizer_latest.json" ≠ p) :
    lookupS (pub3 fs0 ts n enc) p = lookupS (pub2 fs0 ts n enc) p := by
  simp only [pub3]
  rw [latestPath_pub2 fs0 ts n enc hf]
  split
  · rw [lookupS_fsRemove, if_neg hp]
  · rfl

theorem pub4_eq (fs0 : FS) (ts : String) (n : ℕ) (enc : EncTable)
    (hf : FreshTs fs0 ts) :
    pub4 fs0 ts n enc =
      fsWrite (pub3 fs0 ts n enc) "models/bid_optimizer_latest.json"
        (.modelArt n) := by
  simp only [pub4, fsCopy]
  rw [actualModelPath_pub2 fs0 ts n enc hf, latestPath_pub2 fs0 ts n enc hf,
    lookupS_pub3 fs0 ts n enc hf _ (Ne.symm hf.mj_ne_lj),
    lookupS_pub2_mj fs0 ts n enc hf.te_ne_mj]

theorem lookupS_pub4 (fs0 : FS) (ts : String) (n : ℕ) (enc : EncTable)
    (hf : FreshTs fs0 ts) (p : String)
    (hp : "models/bid_optimizer_latest.json" ≠ p) :
    lookupS (pub4 fs0 ts n enc) p = lookupS (pub3 fs0 ts n enc) p := by
  rw [pub4_eq fs0 ts n enc hf, lookupS_fsWrite, if_neg hp]

theorem lookupS_pub4_lj (fs0 : FS) (ts : String) (n : ℕ) (enc : EncTable)
    (hf : FreshTs fs0 ts) :
    lookupS (pub4 fs0 ts n enc) "models/bid_optimizer_latest.json"
      = some (.modelArt n) := by
  rw [pub4_eq fs0 ts n enc hf, lookupS_fsWrite, if_pos rfl]

theorem lookupS_pub5 (fs0 : FS) (ts : String) (n : ℕ) (enc : EncTable)
    (hf : FreshTs fs0 ts) (p : String)
    (hp : "models/bid_optimizer_latest_encoders.json" ≠ p) :
    lookupS (pub5 fs0 ts n enc) p = lookupS (pub4 fs0 ts n enc) p := by
  simp only [pub5]
  rw [actualModelPath_pub2 fs0 ts n enc hf, latestPath_pub2 fs0 ts n enc hf,
    hf.enc_name]
  split
  · split
    · rw [lookupS_fsRemove, if_neg (by rw [encName_latest]; exact hp)]
    · rfl
  · rfl

theorem fsExists_pub4_te (fs0 : FS) (ts : String) (n : ℕ) (enc : EncTable)
    (hf : FreshTs fs0 ts) :
    fsExists (pub4 fs0 ts n enc) (ts_encoders ts) = true := by
  unfold fsExists
  rw [lookupS_pub4 fs0 ts n enc hf _ (Ne.symm hf.te_ne_lj),
    lookupS_pub3 fs0 ts n enc hf _ (Ne.symm hf.te_ne_lj),
    lookupS_pub2_te fs0 ts n enc]
  rfl

theorem pub6_eq (fs0 : FS) (ts : String) (n : ℕ) (enc : EncTable)
    (hf : FreshTs fs0 ts) :
    pub6 fs0 ts n enc =
      fsWrite (pub5 fs0 ts n enc) "models/bid_optimizer_latest_encoders.json"
        (.encArt n enc) := by
  have hex := fsExists_pub4_te fs0 ts n enc hf
  simp only [pub6]
  rw [actualModelPath_pub2 fs0 ts n enc hf, latestPath_pub2 fs0 ts n enc hf,
    hf.enc_name, encName_latest]
  split
  · simp only [fsCopy]
    rw [lookupS_pub5 fs0 ts n enc hf _ (Ne.symm hf.te_ne_le),
      lookupS_pub4 fs0 ts n enc hf _ (Ne.symm hf.te_ne_lj),
      lookupS_pub3 fs0 ts n enc hf _ (Ne.symm hf.te_ne_lj),
      lookupS_pub2_te fs0 ts n enc]
  · next h => exact absurd hex h

/-- A pre-publish filesystem holding the models directory and a previously
published latest pair (version 0). -/
def demoFS : FS :=
  [("models", FsFile.dir),
   ("models/bid_optimizer_latest.json", FsFile.modelArt 0),
   ("models/bid_optimizer_latest_encoders.json", FsFile.encArt 0 [])]

/-- C2 counterexample: starting from a filesystem holding a previous
latest pair, the publish sequence passes through an observable state
(after `os.remove(latest_path)`, before `shutil.copy2`) in which
resolving "latest" finds no model artifact at all — refuting "at no point
during a publish does resolving latest observe a missing artifact". -/
theorem C2_latest_window_counterexample :
    resolveLatestModel
      ((publishStates demoFS "20250101_000000" 1 []).getD 4 []) = none ∧
    resolveLatestModel demoFS = some (FsFile.modelArt 0) := by
  constructor <;> decide

/-- C2 amended: publish does write the timestamped pair first and touches
"latest" only afterwards, but it updates "latest" by removing the previous
file *before* copying the new one into place: the old latest survives the
timestamped writes, is gone in the intermediate state after the removal,
and only the subsequent copy installs the new artifact. -/
theorem C2_latest_removed_before_copy (fs0 : FS) (ts : String) (n : ℕ)
    (enc : EncTable) (old : FsFile) (hf : FreshTs fs0 ts)
    (h_old : lookupS fs0 "models/bid_optimizer_latest.json" = some old) :
    pub3 fs0 ts n enc ∈ publishStates fs0 ts n enc ∧
    resolveLatestModel (pub2 fs0 ts n enc) = some old ∧
    resolveLatestModel (pub3 fs0 ts n enc) = none ∧
    resolveLatestModel (pub4 fs0 ts n enc) = some (.modelArt n) := by
  have hex : fsExists (pub2 fs0 ts n enc)
      "models/bid_optimizer_latest.json" = true := by
    unfold fsExists
    rw [lookupS_pub2 fs0 ts n enc _ hf.mj_ne_lj hf.te_ne_lj (by decide), h_old]
    rfl
  refine ⟨by simp [publishStates], ?_, ?_, ?_⟩
  · simp only [resolveLatestModel]
    rw [lookupS_pub2 fs0 ts n enc _ hf.mj_ne_lj hf.te_ne_lj (by decide)]
    exact h_old
  · simp only [resolveLatestModel, pub3]
    rw [latestPath_pub2 fs0 ts n enc hf]
    split
    · rw [lookupS_fsRemove]
      simp
    · next h => exact absurd hex h
  · simp only [resolveLatestModel]
    exact lookupS_pub4_lj fs0 ts n enc hf

/-- Witness for C2's amended theorem at a concrete publish over `demoFS`. -/
theorem C2_latest_removed_before_copy_witness :
    FreshTs demoFS "20250101_000000" ∧
    lookupS demoFS "models/bid_optimizer_latest.json"
      = some (FsFile.modelArt 0) ∧
    (pub3 demoFS "20250101_000000" 1 [] ∈
        publishStates demoFS "20250101_000000" 1 [] ∧
     resolveLatestModel (pub2 demoFS "20250101_000000" 1 [])
        = some (FsFile.modelArt 0) ∧
     resolveLatestModel (pub3 demoFS "20250101_000000" 1 []) = none ∧
     resolveLatestModel (pub4 demoFS "20250101_000000" 1 [])
        = some (.modelArt 1)) :=
  ⟨by constructor <;> decide, by decide,
   C2_latest_removed_before_copy demoFS "20250101_000000" 1 []
     (FsFile.modelArt 0) (by constructor <;> decide) (by decide)⟩

/-- C3: a completed publish leaves "latest" resolving to the model artifact
and the encoder table written by that same publish call (both tagged `n`),
whatever was on disk before; loading the service against the published
filesystem yields exactly that pair. -/
theorem C3_publish_resolve_pairing (fs0 : FS) (ts : String) (n : ℕ)
    (enc : EncTable) (interp : ℕ → List ℚ → ℚ) (hf : FreshTs fs0 ts)
    (h_noparent : lookupS fs0 "../models" = none) :
    resolveLatestModel (publish fs0 ts n enc) = some (.modelArt n) ∧
    resolveLatestEncoders (publish fs0 ts n enc) = some (.encArt n enc) ∧
    startService interp (publish fs0 ts n enc)
      = ⟨some (interp n), some enc⟩ := by
  have hRM : lookupS (publish fs0 ts n enc)
      "models/bid_optimizer_latest.json" = some (.modelArt n) := by
    simp only [publish]
    rw [pub6_eq fs0 ts n enc hf, lookupS_fsWrite, if_neg (by decide),
      lookupS_pub5 fs0 ts n enc hf _ (by decide),
      lookupS_pub4_lj fs0 ts n enc hf]
  have hRE : lookupS (publish fs0 ts n enc)
      "models/bid_optimizer_latest_encoders.json" = some (.encArt n enc) := by
    simp only [publish]
    rw [pub6_eq fs0 ts n enc hf, lookupS_fsWrite, if_pos rfl]
  have hparent : fsExists (publish fs0 ts n enc) "../models" = false := by
    unfold fsExists
    simp only [publish]
    rw [pub6_eq fs0 ts n enc hf, lookupS_fsWrite, if_neg (by decide),
      lookupS_pub5 fs0 ts n enc hf _ (by decide),
      lookupS_pub4 fs0 ts n enc hf _ (by decide),
      lookupS_pub3 fs0 ts n enc hf _ (by decide),
      lookupS_pub2 fs0 ts n enc _ hf.mj_ne_parent hf.te_ne_parent (by decide),
      h_noparent]
    rfl
  have hmodels : fsExists (publish fs0 ts n enc) "models" = true := by
    unfold fsExists
    simp only [publish]
    rw [pub6_eq fs0 ts n enc hf, lookupS_fsWrite, if_neg (by decide),
      lookupS_pub5 fs0 ts n enc hf _ (by decide),
      lookupS_pub4 fs0 ts n enc hf _ (by decide),
      lookupS_pub3 fs0 ts n enc hf _ (by decide)]
    simp only [pub2, pub1, lookupS_fsWrite]
    rw [if_neg hf.te_ne_dir, if_neg hf.mj_ne_dir]
    exact lookupS_pub0_models fs0
  have hload : loadFrom interp (publish fs0 ts n enc) ⟨none, none⟩
      "models/bid_optimizer_latest.json"
      "models/bid_optimizer_latest_encoders.json"
      = (⟨some (interp n), some enc⟩, none) := by
    unfold loadFrom
    rw [hRM, hRE]
  refine ⟨hRM, hRE, ?_⟩
  unfold startService load_model
  rw [hparent, hmodels, if_neg (by simp), if_pos rfl, hload]

/-- Witness for C3 at a concrete publish over `demoFS`, which still holds
the previous version-0 pair. -/
theorem C3_publish_resolve_pairing_witness :
    FreshTs demoFS "20250101_000000" ∧
    lookupS demoFS "../models" = none ∧
    (resolveLatestModel (publish demoFS "20250101_000000" 1 [])
       = some (.modelArt 1) ∧
     resolveLatestEncoders (publish demoFS "20250101_000000" 1 [])
       = some (.encArt 1 []) ∧
     startService (fun k _ => (k : ℚ)) (publish demoFS "20250101_000000" 1 [])
       = ⟨some ((fun k _ => (k : ℚ)) 1), some []⟩) :=
  ⟨by constructor <;> decide, by decide,
   C3_publish_resolve_pairing demoFS "20250101_000000" 1 []
     (fun k _ => (k : ℚ)) (by constructor <;> decide) (by decide)⟩

/-- C8 counterexample: exporting with a successful conversion but a write
that raises mid-way returns failure AND leaves a partial file behind at
the target path — `export_to_onnx` opens the target for writing directly,
with no temp-file-then-rename step, so it is not atomic. -/
theorem C8_export_partial_counterexample :
    (export_to_onnx [] "models/bid_optimizer.onnx" 1 [] true false).2
      = false ∧
    lookupS (export_to_onnx [] "models/bid_optimizer.onnx" 1 [] true false).1
      "models/bid_optimizer.onnx" = some FsFile.partialFile := by
  constructor <;> decide

/-- C8 amended: on a fully successful export the artifact is at the target
path; if the serialization write raises after the file is opened, the call
fails with a partial file left at the target; if the conversion fails with
a caught error, the call returns successfully having written the artifact
to the `.json` fallback path, leaving the target path untouched. -/
theorem C8_export_not_atomic (fs : FS) (n : ℕ) (enc : EncTable) (w : Bool) :
    ((export_to_onnx fs "models/bid_optimizer.onnx" n enc true true).2
        = true ∧
     lookupS (export_to_onnx fs "models/bid_optimizer.onnx" n enc true true).1
       "models/bid_optimizer.onnx" = some (.modelArt n)) ∧
    ((export_to_onnx fs "models/bid_optimizer.onnx" n enc true false).2
        = false ∧
     lookupS (export_to_onnx fs "models/bid_optimizer.onnx" n enc true false).1
       "models/bid_optimizer.onnx" = some FsFile.partialFile) ∧
    ((export_to_onnx fs "models/bid_optimizer.onnx" n enc false w).2
        = true ∧
     lookupS (export_to_onnx fs "models/bid_optimizer.onnx" n enc false w).1
       "models/bid_optimizer.json" = some (.modelArt n) ∧
     lookupS (export_to_onnx fs "models/bid_optimizer.onnx" n enc false w).1
       "models/bid_optimizer.onnx"
       = lookupS fs "models/bid_optimizer.onnx") := by
  have h1 : encName "models/bid_optimizer.onnx"
      = "models/bid_optimizer_encoders_encoders.json" := by decide
  have h2 : pyReplace "models/bid_optimizer.onnx" ".onnx" ".json"
      = "models/bid_optimizer.json" := by decide
  have h3 : encName "models/bid_optimizer.json"
      = "models/bid_optimizer_encoders.json" := by decide
  have e1 : export_to_onnx fs "models/bid_optimizer.onnx" n enc true true
      = (fsWrite (fsWrite (fsWrite fs "models/bid_optimizer.onnx"
          .partialFile) "models/bid_optimizer.onnx" (.modelArt n))
          "models/bid_optimizer_encoders_encoders.json" (.encArt n enc),
         true) := by
    simp only [export_to_onnx, if_true, h1]
  have e2 : export_to_onnx fs "models/bid_optimizer.onnx" n enc true false
      = (fsWrite fs "models/bid_optimizer.onnx" .partialFile, false) := by
    simp only [export_to_onnx, if_true, Bool.false_eq_true, if_false]
  have e3 : export_to_onnx fs "models/bid_optimizer.onnx" n enc false w
      = (fsWrite (fsWrite fs "models/bid_optimizer.json" (.modelArt n))
          "models/bid_optimizer_encoders.json" (.encArt n enc), true) := by
    simp only [export_to_onnx, Bool.false_eq_true, if_false, h2, h3]
  refine ⟨⟨?_, ?_⟩, ⟨?_, ?_⟩, ?_, ?_, ?_⟩ <;>
    simp [e1, e2, e3, lookupS_fsWrite]

end BidML
